import Mathlib

/-!
Verification of the image-positioning plugin (the Layout Resolver of the spec).

The embedding follows `src/unnamed/part_000`, the most recent variant of the
plugin and the one whose scaling trigger the spec describes word for word
(`fit-to-container` class OR natural height exceeding the container height OR
natural width exceeding the container width).  The older variant
`src/plugin/position-images/position-images.js` differs in two ways that are
noted where relevant: it scales only on the maximize/maximise class, and it
assigns `img.style.top` / `img.style.left` only inside the alignment loop.

Numeric model: JavaScript evaluates the division-then-multiplication chains
of the source (`parseInt(s)/100*m`, `targetWidth/originalWidth*originalHeight`)
in IEEE-754 doubles, rounding every intermediate result; this embedding
replaces each chain by its exact rational value, captured with integer
arithmetic plus `itrunc` (truncation toward zero), and models the JavaScript
`>> 0` / `>> 1` operators as `toInt32` / `shr1`.  The idealization shifts a
truncated chain value by at most one integer step; properties settled below
either carry tolerances that absorb this (the 1-pixel bound of the aspect
claim), do not depend on the chains at all, or are evaluated at concrete
inputs where the double computation is exact.  Exact-output contracts that
are sensitive to the intermediate rounding itself (for example 29 percent of
100, which double arithmetic truncates to 28 while exact rationals give 29)
are outside this model.  The not-a-number value produced by `parseInt` on a
string without a numeric prefix is modelled by `Option.none` and is
propagated exactly as NaN propagates before being collapsed to `0` by
`>> 0`.
-/

/-- Signed 32-bit range, the codomain of the JavaScript `ToInt32` conversion. -/
def inInt32 (n : ℤ) : Prop := -2147483648 ≤ n ∧ n < 2147483648

instance (n : ℤ) : Decidable (inInt32 n) := by unfold inInt32; infer_instance

/-- JavaScript `ToInt32` applied to an integer: reduce modulo 2^32 into the
signed 32-bit range.  Together with `itrunc` below this is the `>> 0` operator
applied to an exact rational value. -/
def toInt32 (n : ℤ) : ℤ := (n + 2147483648) % 4294967296 - 2147483648

/-- Truncation toward zero of the exact rational `num / den` (the effect of
`>> 0` on a finite double before the modular reduction).  For `den = 0` the
result is `0`, matching `ToInt32` of the NaN or infinity that JavaScript
produces when dividing by zero. -/
def itrunc (num den : ℤ) : ℤ :=
  if (0 ≤ num ∧ 0 ≤ den) ∨ (num < 0 ∧ den < 0) then ((num.natAbs / den.natAbs : ℕ) : ℤ)
  else -((num.natAbs / den.natAbs : ℕ) : ℤ)

/-- JavaScript `x >> 1`: `ToInt32` followed by an arithmetic shift right,
which is floor division by 2 (Lean division on `ℤ` rounds toward negative
infinity, matching the arithmetic shift). -/
def shr1 (n : ℤ) : ℤ := toInt32 n / 2

/-- JavaScript whitespace accepted by `parseInt` before the number (ASCII
subset; the Unicode space code points JavaScript also skips are not
modelled, none of the computed-style strings involved contain them). -/
def isJSSpace (c : Char) : Bool :=
  c = ' ' || c = '\t' || c = '\n' || c = '\r' || c.toNat = 11 || c.toNat = 12

/-- Value of a digit character in the given base, `none` when the character is
not a digit of that base. -/
def digitVal (base : ℕ) (c : Char) : Option ℕ :=
  let v : ℕ :=
    if '0' ≤ c ∧ c ≤ '9' then c.toNat - 48
    else if 'a' ≤ c ∧ c ≤ 'f' then c.toNat - 87
    else if 'A' ≤ c ∧ c ≤ 'F' then c.toNat - 55
    else base
  if v < base then some v else none

/-- Accumulate leading digits, stopping at the first non-digit exactly as
`parseInt` does; the accumulator stays `none` until one digit has been read. -/
def parseDigits (base : ℕ) : List Char → Option ℕ → Option ℕ
  | [], acc => acc
  | c :: cs, acc =>
    match digitVal base c with
    | some d => parseDigits base cs (some ((acc.getD 0) * base + d))
    | none => acc

/-- Unsigned part of `parseInt` with unspecified radix: a `0x` or `0X` prefix
selects base 16, otherwise base 10. -/
def parseUnsigned (cs : List Char) : Option ℕ :=
  match cs with
  | '0' :: c :: rest =>
    if c = 'x' ∨ c = 'X' then parseDigits 16 rest none else parseDigits 10 cs none
  | _ => parseDigits 10 cs none

/-- Model of JavaScript `parseInt(s)`: skip whitespace, read an optional sign
and then the leading digits; `none` models the NaN returned when no digit can
be parsed.  (Exact integer result; doubles are exact on all inputs used.) -/
def parseJSInt (s : String) : Option ℤ :=
  match s.data.dropWhile isJSSpace with
  | '-' :: rest => (parseUnsigned rest).map (fun n => -(n : ℤ))
  | '+' :: rest => (parseUnsigned rest).map (fun n => (n : ℤ))
  | rest => (parseUnsigned rest).map (fun n => (n : ℤ))

/-- Embedding of `computeCSSValue( srcValue, multiplier )` from
`src/unnamed/part_000` lines 55-66 (identical to `parseCSSValue` in the other
variants): if the string contains a percent sign, `( parseInt( srcValue ) /
100 * multiplier ) >> 0`, otherwise `parseInt( srcValue ) >> 0`.  The `>> 0`
on the NaN produced by an unparseable string yields `0`. -/
def computeCSSValue (srcValue : String) (multiplier : ℤ) : ℤ :=
  if srcValue.data.contains '%' then
    match parseJSInt srcValue with
    | some n => toInt32 (itrunc (n * multiplier) 100)
    | none => 0
  else
    match parseJSInt srcValue with
    | some n => toInt32 n
    | none => 0

/-- Inputs the host environment supplies to one invocation of `positionImage`
in `src/unnamed/part_000`: natural image size (`img.width` / `img.height`,
non-negative integers), the container content-box size (`clientWidth` /
`clientHeight`, non-negative integers measured under forced visibility), the
computed-style strings for the four margins and for max-width / max-height,
and the ordered class list of the image (source of both the alignment
keywords and the fit flag). -/
structure ImgInput where
  naturalWidth : ℕ
  naturalHeight : ℕ
  containerWidth : ℕ
  containerHeight : ℕ
  marginTop : String
  marginBottom : String
  marginRight : String
  marginLeft : String
  maxWidth : String
  maxHeight : String
  classList : List String
deriving DecidableEq, Repr

/-- FitFlag of the spec: `img.classList.contains( 'fit-to-container' )`.
(The older variant in `src/plugin/position-images/position-images.js` reads
the classes `maximize` / `maximise` instead.) -/
def fitFlag (i : ImgInput) : Bool := i.classList.contains ("fit-to-container")

/-- Resolved pixel value of `margin-top` relative to the container height. -/
def imgMarginTop (i : ImgInput) : ℤ := computeCSSValue i.marginTop (i.containerHeight : ℤ)

/-- Resolved pixel value of `margin-bottom` relative to the container height. -/
def imgMarginBottom (i : ImgInput) : ℤ := computeCSSValue i.marginBottom (i.containerHeight : ℤ)

/-- Resolved pixel value of `margin-right` relative to the container width. -/
def imgMarginRight (i : ImgInput) : ℤ := computeCSSValue i.marginRight (i.containerWidth : ℤ)

/-- Resolved pixel value of `margin-left` relative to the container width. -/
def imgMarginLeft (i : ImgInput) : ℤ := computeCSSValue i.marginLeft (i.containerWidth : ℤ)

/-- Scaling trigger of `src/unnamed/part_000` line 124: the fit flag is set,
or the (still natural) target height exceeds the container height, or the
(still natural) target width exceeds the container width. -/
def scalingTriggered (i : ImgInput) : Bool :=
  fitFlag i || decide (i.naturalHeight > i.containerHeight)
    || decide (i.naturalWidth > i.containerWidth)

/-- Branch choice of line 127: `originalWidth / containerWidth >
originalHeight / containerHeight` with JavaScript division semantics.  With a
zero container dimension a division yields NaN (0/0, comparisons false) or
positive infinity; for positive denominators the comparison of the exact
rationals equals the integer cross-multiplication comparison. -/
def ratioGt (w cw h ch : ℕ) : Bool :=
  if cw = 0 then
    if w = 0 then false else if ch = 0 then false else true
  else
    if ch = 0 then false
    else decide (w * ch > h * cw)

/-- True when the width-constrained branch of the scaling block is taken. -/
def widthConstrained (i : ImgInput) : Bool :=
  ratioGt i.naturalWidth i.containerWidth i.naturalHeight i.containerHeight

/-- Width resolved in the width-constrained branch (line 129):
`computeCSSValue( maxWidth, containerWidth ) - imgMarginRight - imgMarginLeft`. -/
def resolvedMaxW (i : ImgInput) : ℤ :=
  computeCSSValue i.maxWidth (i.containerWidth : ℤ) - imgMarginRight i - imgMarginLeft i

/-- Height resolved in the height-constrained branch (line 134):
`computeCSSValue( maxHeight, containerHeight ) - imgMarginBottom - imgMarginTop`. -/
def resolvedMaxH (i : ImgInput) : ℤ :=
  computeCSSValue i.maxHeight (i.containerHeight : ℤ) - imgMarginBottom i - imgMarginTop i

/-- Derived dimension of lines 130 and 135: `( t / original * other ) >> 0`
where `t` is the branch-resolved dimension, with the chain taken at its exact
rational value `t * other / original` (the intermediate double rounding of
`t / original` is idealized away; it can shift the truncated result by at
most one pixel, within the tolerance of every property stated about this
value).  With `original = 0` the division yields NaN or an infinity and
`>> 0` collapses the product to `0`, exactly what `itrunc` with a zero
denominator produces. -/
def deriveDim (t : ℤ) (original other : ℕ) : ℤ :=
  toInt32 (itrunc (t * (other : ℤ)) (original : ℤ))

/-- Target size after the scaling block (lines 118-139): initialized to the
natural size and overwritten by the taken branch when scaling triggers. -/
def targetDims (i : ImgInput) : ℤ × ℤ :=
  if scalingTriggered i then
    if widthConstrained i then
      (resolvedMaxW i, deriveDim (resolvedMaxW i) i.naturalWidth i.naturalHeight)
    else
      (deriveDim (resolvedMaxH i) i.naturalHeight i.naturalWidth, resolvedMaxH i)
  else ((i.naturalWidth : ℤ), (i.naturalHeight : ℤ))

/-- Geometry read by the alignment loop: container size, final target size
and resolved margins, all in pixels. -/
structure AlignCtx where
  containerHeight : ℤ
  containerWidth : ℤ
  targetHeight : ℤ
  targetWidth : ℤ
  marginTop : ℤ
  marginBottom : ℤ
  marginLeft : ℤ
  marginRight : ℤ
deriving DecidableEq, Repr

/-- Effect of one class token on the vertical offset variable `imgTop`
(lines 154-157).  The three vertical keywords are mutually exclusive string
literals, so the three independent source `if`s equal this if-chain; any
other token leaves the variable unchanged. -/
def vertUpd (g : AlignCtx) (t : ℤ) (c : String) : ℤ :=
  if c = ("top") then 0
  else if c = ("middle") then
    shr1 (g.containerHeight - g.targetHeight - g.marginTop - g.marginBottom)
  else if c = ("bottom") then g.containerHeight - g.targetHeight - g.marginBottom
  else t

/-- Effect of one class token on the horizontal offset variable `imgLeft`
(lines 158-160). -/
def horizUpd (g : AlignCtx) (l : ℤ) (c : String) : ℤ :=
  if c = ("left") then 0
  else if c = ("center") ∨ c = ("centre") then
    shr1 (g.containerWidth - g.targetWidth - g.marginLeft - g.marginRight)
  else if c = ("right") then g.containerWidth - g.targetWidth - g.marginRight
  else l

/-- One iteration of the alignment loop body on the `(imgTop, imgLeft)`
state: the vertical keywords touch only the first component, the horizontal
keywords only the second. -/
def alignStep (g : AlignCtx) (st : ℤ × ℤ) (c : String) : ℤ × ℤ :=
  (vertUpd g st.1 c, horizUpd g st.2 c)

/-- Alignment loop of lines 150-161: iterate the class list in order,
applying every keyword effect unconditionally, starting from the initial
state (`imgTop = 0`, `imgLeft = 0` from lines 147-148). -/
def applyAlignClasses (g : AlignCtx) (cs : List String) (st : ℤ × ℤ) : ℤ × ℤ :=
  cs.foldl (alignStep g) st

/-- Vertical alignment keywords. -/
def vertKey (c : String) : Bool := c = ("top") || c = ("middle") || c = ("bottom")

/-- Horizontal alignment keywords. -/
def horizKey (c : String) : Bool :=
  c = ("left") || c = ("center") || c = ("centre") || c = ("right")

/-- Offset formula the spec assigns to a vertical keyword (`top` is 0,
`middle` the halved free space, anything else reaching here is `bottom`). -/
def vertValue (g : AlignCtx) (c : String) : ℤ :=
  if c = ("top") then 0
  else if c = ("middle") then
    shr1 (g.containerHeight - g.targetHeight - g.marginTop - g.marginBottom)
  else g.containerHeight - g.targetHeight - g.marginBottom

/-- Offset formula the spec assigns to a horizontal keyword (`left` is 0,
`center` / `centre` the halved free space, anything else reaching here is
`right`). -/
def horizValue (g : AlignCtx) (c : String) : ℤ :=
  if c = ("left") then 0
  else if c = ("center") ∨ c = ("centre") then
    shr1 (g.containerWidth - g.targetWidth - g.marginLeft - g.marginRight)
  else g.containerWidth - g.targetWidth - g.marginRight

/-- Alignment geometry assembled by `positionImage` for the loop. -/
def alignCtx (i : ImgInput) : AlignCtx :=
  { containerHeight := (i.containerHeight : ℤ)
    containerWidth := (i.containerWidth : ℤ)
    targetHeight := (targetDims i).2
    targetWidth := (targetDims i).1
    marginTop := imgMarginTop i
    marginBottom := imgMarginBottom i
    marginLeft := imgMarginLeft i
    marginRight := imgMarginRight i }

/-- Output of one invocation of `positionImage`: the final `targetWidth` /
`targetHeight` variables, the `img.style.width` / `img.style.height`
assignments (performed only inside the scaling branch, lines 138-139), the
final `imgTop` / `imgLeft` values (both unconditionally assigned to
`img.style.top` / `img.style.left` at lines 162-163), and the
`img.isPositioned` flag (line 167). -/
structure LayoutResult where
  targetWidth : ℤ
  targetHeight : ℤ
  styleWidth : Option ℤ
  styleHeight : Option ℤ
  imgTop : ℤ
  imgLeft : ℤ
  positioned : Bool
deriving DecidableEq, Repr

/-- Embedding of `positionImage` from `src/unnamed/part_000` lines 70-180,
restricted to its computation and the style values it writes (the DOM reads
are the fields of `ImgInput`, the visibility save / restore has no effect on
the computed values). -/
def positionImage (i : ImgInput) : LayoutResult :=
  { targetWidth := (targetDims i).1
    targetHeight := (targetDims i).2
    styleWidth := if scalingTriggered i then some (targetDims i).1 else none
    styleHeight := if scalingTriggered i then some (targetDims i).2 else none
    imgTop := (applyAlignClasses (alignCtx i) i.classList (0, 0)).1
    imgLeft := (applyAlignClasses (alignCtx i) i.classList (0, 0)).2
    positioned := true }

/-- Mutable presentation state of one image: the style properties
`positionImage` may write, `none` meaning the property was never assigned
(static flow positioning). -/
structure ImgState where
  styleWidth : Option ℤ
  styleHeight : Option ℤ
  styleTop : Option ℤ
  styleLeft : Option ℤ
  isPositioned : Bool
deriving DecidableEq, Repr

/-- Application of one `LayoutResult` to the image state: the size styles are
written only when the scaling branch ran, while `style.top`, `style.left` and
`isPositioned` are written on every invocation (lines 162-163 and 167). -/
def applyLayout (r : LayoutResult) (s : ImgState) : ImgState :=
  { styleWidth := match r.styleWidth with | some v => some v | none => s.styleWidth
    styleHeight := match r.styleHeight with | some v => some v | none => s.styleHeight
    styleTop := some r.imgTop
    styleLeft := some r.imgLeft
    isPositioned := r.positioned }

/-! Shared lemmas about the numeric model. -/

lemma toInt32_int32 (n : ℤ) : inInt32 (toInt32 n) := by
  unfold inInt32 toInt32; omega

lemma toInt32_eq_self {n : ℤ} (h : inInt32 n) : toInt32 n = n := by
  unfold inInt32 at h; unfold toInt32; omega

lemma toInt32_mod (n : ℤ) : toInt32 n % 4294967296 = n % 4294967296 := by
  unfold toInt32; omega

lemma shr1_int32 (n : ℤ) : inInt32 (shr1 n) := by
  have h := toInt32_int32 n
  unfold inInt32 at h ⊢; unfold shr1; omega

lemma cssValue_int32 (s : String) (m : ℤ) : inInt32 (computeCSSValue s m) := by
  unfold computeCSSValue
  split <;> cases hp : parseJSInt s <;> simp only [hp] <;>
    first
      | exact toInt32_int32 _
      | decide

lemma cssValue_of_none {s : String} (m : ℤ) (h : parseJSInt s = none) :
    computeCSSValue s m = 0 := by
  unfold computeCSSValue
  split <;> simp [h]

lemma deriveDim_int32 (t : ℤ) (a b : ℕ) : inInt32 (deriveDim t a b) :=
  toInt32_int32 _

lemma natDiv_abs_sub_lt (n d : ℕ) (hd : 0 < d) :
    |((n / d : ℕ) : ℚ) - (n : ℚ) / (d : ℚ)| < 1 := by
  have hA : d * (n / d) + n % d = n := Nat.div_add_mod n d
  have hB : n % d < d := Nat.mod_lt n hd
  have hAq : (d : ℚ) * ((n / d : ℕ) : ℚ) + ((n % d : ℕ) : ℚ) = (n : ℚ) := by
    exact_mod_cast hA
  have hBq : ((n % d : ℕ) : ℚ) < (d : ℚ) := by exact_mod_cast hB
  have hB0 : (0 : ℚ) ≤ ((n % d : ℕ) : ℚ) := by positivity
  have hdq : (0 : ℚ) < (d : ℚ) := by exact_mod_cast hd
  have hsplit : (n : ℚ) / (d : ℚ) = ((n / d : ℕ) : ℚ) + ((n % d : ℕ) : ℚ) / (d : ℚ) := by
    field_simp
    linarith [hAq]
  have hfrac0 : (0 : ℚ) ≤ ((n % d : ℕ) : ℚ) / (d : ℚ) := by positivity
  have hfrac1 : ((n % d : ℕ) : ℚ) / (d : ℚ) < 1 := (div_lt_one hdq).mpr hBq
  rw [hsplit, abs_sub_lt_iff]
  constructor <;> linarith

lemma itrunc_abs_sub_lt (num den : ℤ) (h : 0 < den) :
    |(itrunc num den : ℚ) - (num : ℚ) / (den : ℚ)| < 1 := by
  have hdpos : 0 < den.natAbs := by omega
  have hb := natDiv_abs_sub_lt num.natAbs den.natAbs hdpos
  have ed : ((den.natAbs : ℕ) : ℚ) = (den : ℚ) := by
    rw [Int.cast_natAbs]
    exact_mod_cast abs_of_pos h
  rcases le_or_lt 0 num with hn | hn
  · have en : ((num.natAbs : ℕ) : ℚ) = (num : ℚ) := by
      rw [Int.cast_natAbs]
      exact_mod_cast abs_of_nonneg hn
    rw [itrunc, if_pos (Or.inl ⟨hn, h.le⟩)]
    rw [en, ed] at hb
    rw [Int.cast_natCast]
    exact hb
  · have en : ((num.natAbs : ℕ) : ℚ) = -(num : ℚ) := by
      rw [Int.cast_natAbs]
      exact_mod_cast abs_of_neg hn
    rw [itrunc, if_neg (by omega)]
    rw [en, ed] at hb
    rw [Int.cast_neg, Int.cast_natCast]
    have hr : -((num.natAbs / den.natAbs : ℕ) : ℚ) - (num : ℚ) / (den : ℚ)
        = -(((num.natAbs / den.natAbs : ℕ) : ℚ) - -(num : ℚ) / (den : ℚ)) := by
      ring
    rw [hr, abs_neg]
    exact hb

/-! Shared lemmas about the alignment loop. -/

lemma vertUpd_of_not_vert (g : AlignCtx) (t : ℤ) {c : String} (h : vertKey c = false) :
    vertUpd g t c = t := by
  simp only [vertKey, Bool.or_eq_false_iff, decide_eq_false_iff_not] at h
  simp [vertUpd, h.1.1, h.1.2, h.2]

lemma vertUpd_of_vert (g : AlignCtx) (t : ℤ) {c : String} (h : vertKey c = true) :
    vertUpd g t c = vertValue g c := by
  simp only [vertKey, Bool.or_eq_true, decide_eq_true_eq] at h
  rcases h with (h | h) | h <;> subst h <;> simp [vertUpd, vertValue]

lemma horizUpd_of_not_horiz (g : AlignCtx) (l : ℤ) {c : String} (h : horizKey c = false) :
    horizUpd g l c = l := by
  simp only [horizKey, Bool.or_eq_false_iff, decide_eq_false_iff_not] at h
  simp [horizUpd, h.1.1.1, h.1.1.2, h.1.2, h.2]

lemma applyAlign_fst (g : AlignCtx) (cs : List String) (st : ℤ × ℤ) :
    (applyAlignClasses g cs st).1 = cs.foldl (vertUpd g) st.1 := by
  induction cs generalizing st with
  | nil => rfl
  | cons c cs ih =>
    simp only [applyAlignClasses, List.foldl_cons] at *
    rw [ih]
    rfl

lemma applyAlign_snd (g : AlignCtx) (cs : List String) (st : ℤ × ℤ) :
    (applyAlignClasses g cs st).2 = cs.foldl (horizUpd g) st.2 := by
  induction cs generalizing st with
  | nil => rfl
  | cons c cs ih =>
    simp only [applyAlignClasses, List.foldl_cons] at *
    rw [ih]
    rfl

lemma foldl_vertUpd_of_not_vert (g : AlignCtx) {cs : List String} (t : ℤ)
    (h : ∀ c ∈ cs, vertKey c = false) : cs.foldl (vertUpd g) t = t := by
  induction cs generalizing t with
  | nil => rfl
  | cons c cs ih =>
    rw [List.foldl_cons, vertUpd_of_not_vert g t (h c (by simp))]
    exact ih t (fun x hx => h x (by simp [hx]))

lemma foldl_horizUpd_of_not_horiz (g : AlignCtx) {cs : List String} (l : ℤ)
    (h : ∀ c ∈ cs, horizKey c = false) : cs.foldl (horizUpd g) l = l := by
  induction cs generalizing l with
  | nil => rfl
  | cons c cs ih =>
    rw [List.foldl_cons, horizUpd_of_not_horiz g l (h c (by simp))]
    exact ih l (fun x hx => h x (by simp [hx]))

lemma scalingTriggered_iff (i : ImgInput) :
    scalingTriggered i = true ↔
      (fitFlag i = true ∨ i.containerHeight < i.naturalHeight ∨
        i.containerWidth < i.naturalWidth) := by
  simp [scalingTriggered, Bool.or_eq_true, decide_eq_true_eq, gt_iff_lt, or_assoc]

/-- C1: scaling of the target dimensions is performed if and only if the fit
flag is set, or the natural height exceeds the container height, or the
natural width exceeds the container width; when none of these holds the
target dimensions equal the natural dimensions unchanged.  (Scaling being
performed is observable as the `img.style.width` / `img.style.height`
assignments of the scaling branch.) -/
theorem positionImage_scaling_iff_trigger (i : ImgInput) :
    ((positionImage i).styleWidth.isSome = true ↔
      (fitFlag i = true ∨ i.containerHeight < i.naturalHeight ∨
        i.containerWidth < i.naturalWidth)) ∧
    ((fitFlag i = false ∧ i.naturalHeight ≤ i.containerHeight ∧
        i.naturalWidth ≤ i.containerWidth) →
      (positionImage i).targetWidth = (i.naturalWidth : ℤ) ∧
      (positionImage i).targetHeight = (i.naturalHeight : ℤ)) := by
  constructor
  · rw [← scalingTriggered_iff i]
    by_cases h : scalingTriggered i = true
    · simp [positionImage, h]
    · simp [positionImage, h]
  · rintro ⟨h1, h2, h3⟩
    have hst : scalingTriggered i = false := by
      simp only [scalingTriggered, h1, Bool.false_or, Bool.or_eq_false_iff,
        decide_eq_false_iff_not, gt_iff_lt, not_lt]
      exact ⟨h2, h3⟩
    constructor <;> simp [positionImage, targetDims, hst]

/-- Witness for C1 at a concrete no-scaling input: a 50 by 40 image inside a
100 by 100 container with no fit class keeps its natural dimensions. -/
theorem positionImage_scaling_iff_trigger_inst :
    (positionImage ⟨50, 40, 100, 100, "0px", "0px", "0px", "0px", "100%",
        "100%", ["left"]⟩).targetWidth = 50 ∧
    (positionImage ⟨50, 40, 100, 100, "0px", "0px", "0px", "0px", "100%",
        "100%", ["left"]⟩).targetHeight = 40 :=
  (positionImage_scaling_iff_trigger _).2 (by decide)

/-- C2: the concrete scenario of the spec: container 400 by 300 with zero
margins, natural image 800 by 300, fit flag set, maxWidth and maxHeight both
100 percent, alignment keywords center then middle.  The width-constrained
branch is taken and the result is target 400 by 150 with offset left 0 and
offset top 75. -/
theorem positionImage_scenario_concrete :
    widthConstrained ⟨800, 300, 400, 300, "0px", "0px", "0px", "0px", "100%",
        "100%", ["fit-to-container", "center", "middle"]⟩ = true ∧
    positionImage ⟨800, 300, 400, 300, "0px", "0px", "0px", "0px", "100%",
        "100%", ["fit-to-container", "center", "middle"]⟩ =
      ⟨400, 150, some 400, some 150, 75, 0, true⟩ := by
  decide

/-- C4 (amended): a string with no parseable numeric prefix makes `parseInt`
return NaN, and the `>> 0` truncation collapses that NaN to the valid pixel
value 0; no not-a-number result or error escapes the normalizer. -/
theorem computeCSSValue_unparseable_yields_zero :
    ∀ (s : String) (m : ℤ), parseJSInt s = none → computeCSSValue s m = 0 :=
  fun _ m h => cssValue_of_none m h

/-- Counterexample to C4 as stated: the unparseable string px yields the
integer 0, a valid pixel value, not a propagated not-a-number. -/
theorem computeCSSValue_nan_cex :
    parseJSInt ("px") = none ∧ computeCSSValue ("px") 200 = 0 := by
  decide

/-- Witness for C4 (amended) at another unparseable string. -/
theorem computeCSSValue_unparseable_inst : computeCSSValue ("em") 400 = 0 :=
  computeCSSValue_unparseable_yields_zero ("em") 400 (by decide)

lemma foldl_vertUpd_last (g : AlignCtx) (t : ℤ) (pre post : List String)
    (k : String) (hk : vertKey k = true) (hpost : ∀ c ∈ post, vertKey c = false) :
    (pre ++ k :: post).foldl (vertUpd g) t = vertValue g k := by
  rw [List.foldl_append, List.foldl_cons, vertUpd_of_vert g _ hk]
  exact foldl_vertUpd_of_not_vert g _ hpost

lemma horizUpd_of_horiz (g : AlignCtx) (l : ℤ) {c : String} (h : horizKey c = true) :
    horizUpd g l c = horizValue g c := by
  simp only [horizKey, Bool.or_eq_true, decide_eq_true_eq] at h
  rcases h with ((h | h) | h) | h <;> subst h <;> simp [horizUpd, horizValue]

lemma foldl_horizUpd_last (g : AlignCtx) (l : ℤ) (pre post : List String)
    (k : String) (hk : horizKey k = true) (hpost : ∀ c ∈ post, horizKey c = false) :
    (pre ++ k :: post).foldl (horizUpd g) l = horizValue g k := by
  rw [List.foldl_append, List.foldl_cons, horizUpd_of_horiz g _ hk]
  exact foldl_horizUpd_of_not_horiz g _ hpost

/-- C5: offsets are resolved by iterating the alignment keyword list in
order, each keyword effect applied unconditionally, so the last keyword
affecting an axis determines that offset, on both axes: any keywords before
the last vertical (resp. horizontal) keyword and any non-vertical (resp.
non-horizontal) keywords after it are irrelevant to that axis; in particular
for the class list top then bottom the resulting vertical offset is the
bottom formula, container height minus target height minus bottom margin,
not 0. -/
theorem last_alignment_keyword_wins :
    (∀ (g : AlignCtx) (st : ℤ × ℤ) (pre post : List String) (k : String),
      vertKey k = true → (∀ c ∈ post, vertKey c = false) →
      (applyAlignClasses g (pre ++ k :: post) st).1 = vertValue g k) ∧
    (∀ (g : AlignCtx) (st : ℤ × ℤ) (pre post : List String) (k : String),
      horizKey k = true → (∀ c ∈ post, horizKey c = false) →
      (applyAlignClasses g (pre ++ k :: post) st).2 = horizValue g k) ∧
    (∀ i : ImgInput, i.classList = ["top", "bottom"] →
      (positionImage i).imgTop =
        (i.containerHeight : ℤ) - (positionImage i).targetHeight - imgMarginBottom i) := by
  refine ⟨?_, ?_, ?_⟩
  · intro g st pre post k hk hpost
    rw [applyAlign_fst]
    exact foldl_vertUpd_last g st.1 pre post k hk hpost
  · intro g st pre post k hk hpost
    rw [applyAlign_snd]
    exact foldl_horizUpd_last g st.2 pre post k hk hpost
  · intro i hcl
    show (applyAlignClasses (alignCtx i) i.classList (0, 0)).1 = _
    rw [hcl, applyAlign_fst]
    have hb : (["top", "bottom"] : List String) = ["top"] ++ ("bottom") :: [] := rfl
    rw [hb, foldl_vertUpd_last (alignCtx i) 0 (["top"]) ([]) ("bottom") (by decide)
      (by decide)]
    show vertValue (alignCtx i) ("bottom") = _
    rw [show vertValue (alignCtx i) ("bottom") =
      (alignCtx i).containerHeight - (alignCtx i).targetHeight - (alignCtx i).marginBottom
      from by simp [vertValue]]
    rfl

/-- Witness for C5: a concrete container and target geometry where the list
top then bottom yields the bottom formula value on the vertical axis, and
the list left then right yields the right formula value on the horizontal
axis. -/
theorem last_alignment_keyword_wins_inst :
    (applyAlignClasses ⟨300, 400, 150, 400, 1, 2, 3, 4⟩ (["top", "bottom"]) (0, 0)).1 =
      vertValue ⟨300, 400, 150, 400, 1, 2, 3, 4⟩ ("bottom") ∧
    (applyAlignClasses ⟨300, 400, 150, 400, 1, 2, 3, 4⟩ (["left", "right"]) (0, 0)).2 =
      horizValue ⟨300, 400, 150, 400, 1, 2, 3, 4⟩ ("right") :=
  ⟨last_alignment_keyword_wins.1 ⟨300, 400, 150, 400, 1, 2, 3, 4⟩ (0, 0) (["top"]) ([])
      ("bottom") (by decide) (by decide),
    last_alignment_keyword_wins.2.1 ⟨300, 400, 150, 400, 1, 2, 3, 4⟩ (0, 0) (["left"]) ([])
      ("right") (by decide) (by decide)⟩

/-- C6 (amended): when scaling triggers on a natural size with positive width
and height, the derived target dimension equals the exact aspect-preserving
value (branch-resolved dimension scaled by the natural ratio) within a
truncation error of at most 1 pixel, provided the truncated exact value lies
in the signed 32-bit range; outside that range the `>> 0` operator wraps
modulo 2^32 and the aspect ratio is destroyed. -/
theorem aspect_ratio_preserved_in_range (i : ImgInput)
    (hw : 0 < i.naturalWidth) (hh : 0 < i.naturalHeight)
    (hs : scalingTriggered i = true) :
    (widthConstrained i = true →
      inInt32 (itrunc (resolvedMaxW i * (i.naturalHeight : ℤ)) (i.naturalWidth : ℤ)) →
      (positionImage i).targetWidth = resolvedMaxW i ∧
      |((positionImage i).targetHeight : ℚ) -
        (resolvedMaxW i : ℚ) / (i.naturalWidth : ℚ) * (i.naturalHeight : ℚ)| ≤ 1) ∧
    (widthConstrained i = false →
      inInt32 (itrunc (resolvedMaxH i * (i.naturalWidth : ℤ)) (i.naturalHeight : ℤ)) →
      (positionImage i).targetHeight = resolvedMaxH i ∧
      |((positionImage i).targetWidth : ℚ) -
        (resolvedMaxH i : ℚ) / (i.naturalHeight : ℚ) * (i.naturalWidth : ℚ)| ≤ 1) := by
  constructor
  · intro hb hin
    have e1 : (positionImage i).targetWidth = resolvedMaxW i := by
      simp [positionImage, targetDims, hs, hb]
    have e2 : (positionImage i).targetHeight =
        toInt32 (itrunc (resolvedMaxW i * (i.naturalHeight : ℤ)) (i.naturalWidth : ℤ)) := by
      simp [positionImage, targetDims, hs, hb, deriveDim]
    refine ⟨e1, ?_⟩
    rw [e2, toInt32_eq_self hin]
    have hbnd := itrunc_abs_sub_lt (resolvedMaxW i * (i.naturalHeight : ℤ))
      (i.naturalWidth : ℤ) (by exact_mod_cast hw)
    have harr : ((resolvedMaxW i * (i.naturalHeight : ℤ) : ℤ) : ℚ) / ((i.naturalWidth : ℤ) : ℚ)
        = (resolvedMaxW i : ℚ) / (i.naturalWidth : ℚ) * (i.naturalHeight : ℚ) := by
      push_cast
      ring
    rw [harr] at hbnd
    exact le_of_lt hbnd
  · intro hb hin
    have e1 : (positionImage i).targetHeight = resolvedMaxH i := by
      simp [positionImage, targetDims, hs, hb]
    have e2 : (positionImage i).targetWidth =
        toInt32 (itrunc (resolvedMaxH i * (i.naturalWidth : ℤ)) (i.naturalHeight : ℤ)) := by
      simp [positionImage, targetDims, hs, hb, deriveDim]
    refine ⟨e1, ?_⟩
    rw [e2, toInt32_eq_self hin]
    have hbnd := itrunc_abs_sub_lt (resolvedMaxH i * (i.naturalWidth : ℤ))
      (i.naturalHeight : ℤ) (by exact_mod_cast hh)
    have harr : ((resolvedMaxH i * (i.naturalWidth : ℤ) : ℤ) : ℚ) / ((i.naturalHeight : ℤ) : ℚ)
        = (resolvedMaxH i : ℚ) / (i.naturalHeight : ℚ) * (i.naturalWidth : ℚ) := by
      push_cast
      ring
    rw [harr] at hbnd
    exact le_of_lt hbnd

/-- Input refuting C6 as universally stated: a 1 by 100 image in a 1 by 1000
container with fit flag set and a huge max-width. -/
def imgC6 : ImgInput :=
  ⟨1, 100, 1, 1000, "0px", "0px", "0px", "0px", "2000000000px", "100%",
    ["fit-to-container"]⟩

/-- Counterexample to C6 as stated: scaling triggers, the width branch is
taken, but the derived height wraps modulo 2^32 to a negative value, so the
output ratio is not the natural ratio within 1 pixel under either reading
(derived-dimension error or ratio error). -/
theorem aspect_ratio_wrap_cex :
    scalingTriggered imgC6 = true ∧ widthConstrained imgC6 = true ∧
    (positionImage imgC6).targetWidth = 2000000000 ∧
    (positionImage imgC6).targetHeight = -1863462912 ∧
    ¬(|((positionImage imgC6).targetHeight : ℚ) -
        ((positionImage imgC6).targetWidth : ℚ) / (imgC6.naturalWidth : ℚ) *
          (imgC6.naturalHeight : ℚ)| ≤ 1) ∧
    ¬(|((positionImage imgC6).targetWidth : ℚ) / ((positionImage imgC6).targetHeight : ℚ) -
        (imgC6.naturalWidth : ℚ) / (imgC6.naturalHeight : ℚ)| ≤ 1) := by
  have h1 : (positionImage imgC6).targetWidth = 2000000000 := by decide
  have h2 : (positionImage imgC6).targetHeight = -1863462912 := by decide
  have h3 : imgC6.naturalWidth = 1 := rfl
  have h4 : imgC6.naturalHeight = 100 := rfl
  refine ⟨by decide, by decide, h1, h2, ?_, ?_⟩
  · rw [h1, h2, h3, h4]
    norm_num [abs_le]
  · rw [h1, h2, h3, h4]
    norm_num [abs_le]

/-- Input witnessing the amended C6 on the scenario geometry. -/
def imgC6w : ImgInput :=
  ⟨800, 300, 400, 300, "0px", "0px", "0px", "0px", "100%", "100%",
    ["fit-to-container"]⟩

/-- Witness for C6 (amended) at a concrete in-range input. -/
theorem aspect_ratio_preserved_inst :
    (positionImage imgC6w).targetWidth = resolvedMaxW imgC6w ∧
    |((positionImage imgC6w).targetHeight : ℚ) -
      (resolvedMaxW imgC6w : ℚ) / (imgC6w.naturalWidth : ℚ) * (imgC6w.naturalHeight : ℚ)| ≤ 1 :=
  (aspect_ratio_preserved_in_range imgC6w (by decide) (by decide) (by decide)).1
    (by decide) (by decide)

/-- C7 (amended): when scaling triggers, the branch-selected dimension never
exceeds its own resolved max constraint as long as the margins subtracted
from it are non-negative (width branch: target width bounded by the resolved
max-width; height branch: target height bounded by the resolved max-height).
The other, aspect-derived dimension is not clamped by its max constraint at
all and can exceed it. -/
theorem branch_dim_le_max_constraint (i : ImgInput) (hs : scalingTriggered i = true) :
    (widthConstrained i = true → 0 ≤ imgMarginRight i → 0 ≤ imgMarginLeft i →
      (positionImage i).targetWidth ≤ computeCSSValue i.maxWidth (i.containerWidth : ℤ)) ∧
    (widthConstrained i = false → 0 ≤ imgMarginBottom i → 0 ≤ imgMarginTop i →
      (positionImage i).targetHeight ≤ computeCSSValue i.maxHeight (i.containerHeight : ℤ)) := by
  constructor
  · intro hb h1 h2
    have e : (positionImage i).targetWidth = resolvedMaxW i := by
      simp [positionImage, targetDims, hs, hb]
    rw [e]
    unfold resolvedMaxW
    omega
  · intro hb h1 h2
    have e : (positionImage i).targetHeight = resolvedMaxH i := by
      simp [positionImage, targetDims, hs, hb]
    rw [e]
    unfold resolvedMaxH
    omega

/-- Input refuting C7 as stated: width branch taken while max-height resolves
to 10 pixels only. -/
def imgC7 : ImgInput :=
  ⟨800, 300, 400, 300, "0px", "0px", "0px", "0px", "100%", "10px",
    ["fit-to-container"]⟩

/-- Counterexample to C7 as stated: in the width branch the derived height,
150, exceeds the resolved max-height constraint, 10, because the code never
consults max-height in that branch. -/
theorem max_constraint_cex :
    scalingTriggered imgC7 = true ∧ widthConstrained imgC7 = true ∧
    (positionImage imgC7).targetHeight = 150 ∧
    computeCSSValue imgC7.maxHeight (imgC7.containerHeight : ℤ) = 10 ∧
    ¬((positionImage imgC7).targetHeight ≤
        computeCSSValue imgC7.maxHeight (imgC7.containerHeight : ℤ)) := by
  decide

/-- Input witnessing the amended C7 on the scenario geometry. -/
def imgC7w : ImgInput :=
  ⟨800, 300, 400, 300, "0px", "0px", "0px", "0px", "100%", "100%",
    ["fit-to-container", "center", "middle"]⟩

/-- Witness for C7 (amended): the branch-selected width stays within the
resolved max-width. -/
theorem branch_dim_le_max_inst :
    (positionImage imgC7w).targetWidth ≤
      computeCSSValue imgC7w.maxWidth (imgC7w.containerWidth : ℤ) :=
  (branch_dim_le_max_constraint imgC7w (by decide)).1 (by decide) (by decide) (by decide)

/-- Input exhibiting the C8 divergence: one horizontal keyword, no vertical
keyword, and a pre-existing vertical offset of 5 pixels. -/
def imgC8 : ImgInput :=
  ⟨50, 40, 100, 100, "0px", "0px", "0px", "0px", "100%", "100%", ["left"]⟩

/-- C8: the claim (and the header comment of the plugin) say that an axis
with no alignment keyword is left untouched, but `src/unnamed/part_000`
initializes `imgTop` and `imgLeft` to 0 and assigns both to the style
unconditionally after the loop, so the prior vertical offset 5 is overwritten
with 0.  (The older variant `src/plugin/position-images/position-images.js`
assigns offsets only inside the loop and does leave the axis untouched.) -/
theorem unset_axis_overwritten :
    (imgC8.classList.all fun c => !vertKey c) = true ∧
    (applyLayout (positionImage imgC8) ⟨none, none, some 5, none, false⟩).styleTop = some 0 ∧
    (applyLayout (positionImage imgC8) ⟨none, none, some 5, none, false⟩).styleTop ≠ some 5 := by
  decide

/-- C9: applying the result of `positionImage` for a fixed input twice to any
image state equals applying it once (the second invocation simply overwrites
the first; the resolver output itself depends only on its input), and the
positioned flag is set after application. -/
theorem resolver_overwrite_idempotent (i : ImgInput) (s : ImgState) :
    applyLayout (positionImage i) (applyLayout (positionImage i) s) =
      applyLayout (positionImage i) s ∧
    (applyLayout (positionImage i) s).isPositioned = true := by
  constructor
  · cases hw : (positionImage i).styleWidth <;> cases hh : (positionImage i).styleHeight <;>
      simp [applyLayout, hw, hh]
  · rfl

/-- C10 (amended): the normalizer output always passes through `>> 0` and is
a signed 32-bit integer (with NaN collapsed to 0), `>> 0` wraps modulo 2^32
into the signed range, `>> 1` outputs lie in the signed range, and the
aspect-derived target dimension passes through `>> 0` and is a signed 32-bit
integer; but the branch-selected target dimension is a plain difference
(resolved max minus two margins) that does not pass through any shift and can
lie outside the signed 32-bit range. -/
theorem int32_range_outputs :
    (∀ (s : String) (m : ℤ), inInt32 (computeCSSValue s m)) ∧
    (∀ (s : String) (m : ℤ), parseJSInt s = none → computeCSSValue s m = 0) ∧
    (∀ n : ℤ, inInt32 (toInt32 n) ∧ toInt32 n % 4294967296 = n % 4294967296) ∧
    (∀ n : ℤ, inInt32 (shr1 n)) ∧
    (∀ i : ImgInput, scalingTriggered i = true →
      (widthConstrained i = true → inInt32 ((positionImage i).targetHeight)) ∧
      (widthConstrained i = false → inInt32 ((positionImage i).targetWidth))) := by
  refine ⟨cssValue_int32, fun _ m h => cssValue_of_none m h,
    fun n => ⟨toInt32_int32 n, toInt32_mod n⟩, shr1_int32, ?_⟩
  intro i hs
  constructor
  · intro hb
    have e : (positionImage i).targetHeight =
        deriveDim (resolvedMaxW i) i.naturalWidth i.naturalHeight := by
      simp [positionImage, targetDims, hs, hb]
    rw [e]
    exact deriveDim_int32 _ _ _
  · intro hb
    have e : (positionImage i).targetWidth =
        deriveDim (resolvedMaxH i) i.naturalHeight i.naturalWidth := by
      simp [positionImage, targetDims, hs, hb]
    rw [e]
    exact deriveDim_int32 _ _ _

/-- Input refuting C10 as stated: max-width resolves to 2147483647 while both
horizontal margins resolve to -2147483648. -/
def imgC10 : ImgInput :=
  ⟨800, 300, 400, 300, "0px", "0px", "-2147483648px", "-2147483648px",
    "2147483647px", "100%", []⟩

/-- Counterexample to C10 as stated: the branch-selected target width,
6442450943, is written to the style and lies far outside the signed 32-bit
range, because the subtraction of the margins is never passed through a
shift. -/
theorem int32_range_cex :
    (positionImage imgC10).targetWidth = 6442450943 ∧
    (positionImage imgC10).styleWidth = some 6442450943 ∧
    ¬ inInt32 ((positionImage imgC10).targetWidth) := by
  decide

/-- Input witnessing the amended C10 on the scenario geometry. -/
def imgC10w : ImgInput :=
  ⟨800, 300, 400, 300, "0px", "0px", "0px", "0px", "100%", "100%",
    ["fit-to-container"]⟩

/-- Witness for C10 (amended): the aspect-derived target height at a concrete
input is a signed 32-bit integer. -/
theorem int32_range_outputs_inst : inInt32 ((positionImage imgC10w).targetHeight) :=
  (int32_range_outputs.2.2.2.2 imgC10w (by decide)).1 (by decide)
